import Mathlib

/-!
# HomeTracker Emporia worker — verification of the normalizer, poll loop and demo generator

Shallow embedding of `src/backend/python/emporia_worker.py`.  Numeric values
(watts) are modelled as exact rationals; Python `round(x, 2)` is modelled by
`round2`.  The Python dict used for the circuit map is modelled as an ordered
association list with in-place update on key collision, mirroring CPython dict
assignment semantics.  Randomness in the demo generator is modelled by passing
the random draws as explicit inputs.
-/

namespace EmporiaWorker

/-- One raw channel of a vendor payload: `channel.channel_num`,
`channel.name` (Python `None` ↦ `none`), `channel.usage`
(Python `None` ↦ `none`). -/
structure Channel where
  channel_num : String
  name : Option String
  usage : Option ℚ
  deriving DecidableEq, Repr

/-- Python `channel.usage or 0.0` (absent/null usage treated as 0). -/
def usageOf (c : Channel) : ℚ := c.usage.getD 0

/-- Python truthiness of an optional string: `None` and `""` are falsy. -/
def strTruthy : Option String → Bool
  | some s => s ≠ ""
  | none => false

/-- Association list modelling the Python dict `circuits`. -/
abbrev CircuitMap := List (String × ℚ)

/-- Lookup in the circuit map (first occurrence; keys are unique by
construction). -/
def lookupC : CircuitMap → String → Option ℚ
  | [], _ => none
  | (k, v) :: rest, key => if k = key then some v else lookupC rest key

/-- CPython dict assignment `d[k] = v`: update the value in place when the key
exists, otherwise append. -/
def dictInsert : CircuitMap → String → ℚ → CircuitMap
  | [], k, v => [(k, v)]
  | (k', v') :: rest, k, v =>
    if k' = k then (k', v) :: rest else (k', v') :: dictInsert rest k v

/-- Accumulator of the channel-parsing loop of `poll_emporia`
(lines 128–131): `total = 0.0; phase_a = None; phase_b = None; circuits = {}`. -/
structure NormState where
  total : ℚ
  phase_a : Option ℚ
  phase_b : Option ℚ
  circuits : CircuitMap
  deriving DecidableEq, Repr

/-- Body of the `for channel in device.channels` loop of `poll_emporia`
(lines 133–146): the `elif` chain on `channel_num`, then the named-circuit
insertion guarded by `channel.name and usage > 0`. -/
def processChannel (s : NormState) (c : Channel) : NormState :=
  let usage := usageOf c
  if c.channel_num = "1,2,3" then { s with total := usage }
  else if c.channel_num = "1,2" then { s with phase_a := some usage }
  else if c.channel_num = "3,4" then { s with phase_b := some usage }
  else if strTruthy c.name ∧ 0 < usage then
    { s with circuits := dictInsert s.circuits (c.name.getD "") usage }
  else s

/-- The whole channel loop: channels processed in the order received. -/
def normalize (channels : List Channel) : NormState :=
  channels.foldl processChannel ⟨0, none, none, []⟩

/-! ### Statement-side helpers for characterizing the normalizer -/

/-- The channel is the "all phases combined" marker. -/
def isTotalChan (c : Channel) : Bool := c.channel_num = "1,2,3"

/-- The channel is the "first main leg" marker. -/
def isPhaseAChan (c : Channel) : Bool := c.channel_num = "1,2"

/-- The channel is the "second main leg" marker. -/
def isPhaseBChan (c : Channel) : Bool := c.channel_num = "3,4"

/-- The channel falls through the `elif` chain and qualifies for the circuits
map: unmatched identifier, truthy name, positive usage. -/
def isCircuitChan (c : Channel) : Bool :=
  ¬ c.channel_num = "1,2,3" ∧ ¬ c.channel_num = "1,2" ∧ ¬ c.channel_num = "3,4" ∧
    strTruthy c.name ∧ 0 < usageOf c

/-- The channel qualifies for the circuits map under the given name. -/
def isCircuitFor (name : String) (c : Channel) : Bool :=
  isCircuitChan c ∧ c.name = some name

/-- The last element of the list satisfying `p`, if any. -/
def lastMatch (p : Channel → Bool) : List Channel → Option Channel
  | [] => none
  | c :: cs =>
    match lastMatch p cs with
    | some c' => some c'
    | none => if p c then some c else none

/-! ### Rounding and the publish boundary -/

/-- Python `round(x, 2)`: round to 2 decimal places (modelled on exact
rationals). -/
def round2 (q : ℚ) : ℚ := (round (q * 100) : ℚ) / 100

/-- One emitted `{"type":"reading", ...}` JSON object. -/
structure EmitReading where
  demo : Bool
  ts : Int
  total : ℚ
  phase_a : Option ℚ
  phase_b : Option ℚ
  circuits : CircuitMap
  deriving DecidableEq, Repr

/-- Model of `round(phase, 2) if phase else None` (lines 157–158): Python falsy
coalescing — both `None` and a value of exactly 0 publish as `null`. -/
def coalescePhase : Option ℚ → Option ℚ
  | some v => if v = 0 then none else some (round2 v)
  | none => none

/-- Model of the dict comprehension rounding each circuit value to 2 decimals. -/
def roundCircuits (d : CircuitMap) : CircuitMap :=
  d.map (fun p => (p.1, round2 p.2))

/-- The reading object emitted by `poll_emporia` (lines 153–160). -/
def emitLiveReading (ts : Int) (n : NormState) : EmitReading :=
  { demo := false
    ts := ts
    total := round2 n.total
    phase_a := coalescePhase n.phase_a
    phase_b := coalescePhase n.phase_b
    circuits := roundCircuits n.circuits }

/-! ### Persistence gateway: the learning-status singleton row -/

/-- The singleton `power_learning_status` row (the `last_updated` wall-clock
column is not modelled). -/
structure LearningStatus where
  first_reading_ts : Option Int
  total_readings : Nat
  deriving DecidableEq, Repr

/-- Model of `update_learning_status` (lines 93–102):
`first_reading_ts = COALESCE(first_reading_ts, ts)`,
`total_readings = total_readings + 1`. -/
def update_learning_status (ls : LearningStatus) (ts : Int) : LearningStatus :=
  { first_reading_ts := some (ls.first_reading_ts.getD ts)
    total_readings := ls.total_readings + 1 }

/-! ### Observable actions of the worker -/

/-- One observable action of the worker: a JSON emission, a sleep, a database
write, or a connection-related call. -/
inductive Action where
  | emitReading (r : EmitReading)
  | emitStatus (status : String)
  | emitConnected (gid : String)
  | emitError (err : String) (retry_in : Option Nat)
  | sleep (secs : Nat)
  | storeReading (ts : Int) (total : ℚ) (phase_a phase_b : Option ℚ) (circuits : CircuitMap)
  | bumpStatus (ts : Int)
  | login (email password : String)
  | saveDeviceGid (gid : String)
  | closeDb
  deriving DecidableEq, Repr

/-- Effect of an action trace on the learning-status row: only `bumpStatus`
(i.e. `update_learning_status`) touches it. -/
def applyLS (ls : LearningStatus) : List Action → LearningStatus
  | [] => ls
  | Action.bumpStatus ts :: rest => applyLS (update_learning_status ls ts) rest
  | _ :: rest => applyLS ls rest

/-! ### poll_emporia -/

/-- Outcome of the upstream fetch inside `poll_emporia`: a payload (the first
device's channels, with the wall clock read as `ts`), an empty device-data
list, or an exception raised during the fetch. -/
inductive PollResult where
  | payload (ts : Int) (channels : List Channel)
  | noDeviceData
  | exn (msg : String)
  deriving DecidableEq, Repr

/-- Model of `poll_emporia` (lines 110–166): on a payload, normalize the channels,
store the (unrounded) reading, bump the learning status, emit the rounded
reading, return `True`; on empty device data or an exception, emit an error
object and return `False`. -/
def poll_emporia (pr : PollResult) : List Action × Bool :=
  match pr with
  | PollResult.payload ts channels =>
    let n := normalize channels
    ([Action.storeReading ts n.total n.phase_a n.phase_b n.circuits,
      Action.bumpStatus ts,
      Action.emitReading (emitLiveReading ts n)], true)
  | PollResult.noDeviceData => ([Action.emitError "no_device_data" none], false)
  | PollResult.exn msg => ([Action.emitError msg none], false)

/-! ### Demo generator -/

/-- The random draws and wall-clock inputs of one `generate_demo_reading`
call, passed explicitly: `base_noise ∈ uniform(-100,100)`,
`peak_extra ∈ uniform(200,500)`, `noise_a`, `noise_b ∈ uniform(-50,50)`,
`hvac_gate ∈ random.random() = uniform[0,1)`, `hvac_draw ∈ uniform(100,400)`,
`kitchen_draw ∈ uniform(50,200)`, `living_draw ∈ uniform(20,80)`,
`office_draw ∈ uniform(30,150)`. -/
structure DemoDraws where
  ts : Int
  hour : Nat
  base_noise : ℚ
  peak_extra : ℚ
  noise_a : ℚ
  noise_b : ℚ
  hvac_gate : ℚ
  hvac_draw : ℚ
  kitchen_draw : ℚ
  living_draw : ℚ
  office_draw : ℚ
  deriving DecidableEq, Repr

/-- Peak-hour test `6 <= hour <= 9 or 17 <= hour <= 21` (line 178). -/
def isPeakHour (hour : Nat) : Bool :=
  (6 ≤ hour && hour ≤ 9) || (17 ≤ hour && hour ≤ 21)

/-- Base load `800 + uniform(-100,100)`, plus `uniform(200,500)` during
peak hours; `total = base_load`. -/
def demoTotal (d : DemoDraws) : ℚ :=
  let base := 800 + d.base_noise
  if isPeakHour d.hour then base + d.peak_extra else base

/-- Demo `phase_a = total * 0.55 + uniform(-50, 50)`. -/
def demoPhaseA (d : DemoDraws) : ℚ := demoTotal d * (55 / 100) + d.noise_a

/-- Demo `phase_b = total * 0.45 + uniform(-50, 50)`. -/
def demoPhaseB (d : DemoDraws) : ℚ := demoTotal d * (45 / 100) + d.noise_b

/-- The demo circuits dict (lines 185–190); HVAC is zeroed unless
`random.random() > 0.3`. -/
def demoCircuits (d : DemoDraws) : CircuitMap :=
  [("HVAC", if 3 / 10 < d.hvac_gate then d.hvac_draw else 0),
   ("Kitchen", d.kitchen_draw),
   ("Living Room", d.living_draw),
   ("Office", d.office_draw)]

/-- The JSON object emitted on the demo path (lines 195–203): `demo: True`,
all values rounded, phases emitted unconditionally (no falsy coalescing). -/
def demoEmit (d : DemoDraws) : EmitReading :=
  { demo := true
    ts := d.ts
    total := round2 (demoTotal d)
    phase_a := some (round2 (demoPhaseA d))
    phase_b := some (round2 (demoPhaseB d))
    circuits := roundCircuits (demoCircuits d) }

/-- Model of `generate_demo_reading` (lines 169–203): store the unrounded reading,
bump the learning status, emit the rounded reading with the demo flag. -/
def generate_demo_reading (d : DemoDraws) : List Action :=
  [Action.storeReading d.ts (demoTotal d) (some (demoPhaseA d))
     (some (demoPhaseB d)) (demoCircuits d),
   Action.bumpStatus d.ts,
   Action.emitReading (demoEmit d)]

/-! ### The main loop -/

/-- The loop-carried state of `main`: `vue` (the session handle, `None` when
absent), the `device_gid` local, and `consecutive_failures`. -/
structure WorkerState where
  vue : Option Unit
  device_gid : Option String
  consecutive_failures : Nat
  deriving DecidableEq, Repr

/-- The environment one normal iteration observes: the module configuration,
the credential/device rows read from the database, the device-discovery
answer, the demo draws, and the poll outcome. -/
structure PollEnv where
  demo_mode : Bool
  pyemvue_available : Bool
  poll_interval : Nat
  email : Option String
  password : Option String
  db_device_gid : Option String
  discovered_devices : List String
  demo_draws : DemoDraws
  poll_result : PollResult
  deriving DecidableEq, Repr

/-- The `if vue is None:` block (lines 236–264): emit `connecting`, login,
read the device gid; when falsy, auto-discover — an empty device list emits
`no_devices_found`, sleeps 60s, discards the session and `continue`s (third
component `false`); otherwise the first device is persisted; finally emit
`connected` and zero the failure counter. -/
def connectStep (st : WorkerState) (env : PollEnv) : WorkerState × List Action × Bool :=
  match st.vue with
  | some _ => (st, [], true)
  | none =>
    let base := [Action.emitStatus "connecting",
                 Action.login (env.email.getD "") (env.password.getD "")]
    if strTruthy env.db_device_gid then
      let gid := env.db_device_gid.getD ""
      ({ vue := some (), device_gid := some gid, consecutive_failures := 0 },
       base ++ [Action.emitConnected gid], true)
    else
      match env.discovered_devices with
      | [] =>
        ({ vue := none, device_gid := env.db_device_gid,
           consecutive_failures := st.consecutive_failures },
         base ++ [Action.emitError "no_devices_found" none, Action.sleep 60], false)
      | d :: _ =>
        ({ vue := some (), device_gid := some d, consecutive_failures := 0 },
         base ++ [Action.saveDeviceGid d, Action.emitConnected d], true)

/-- Lines 269–282: a successful poll zeros the failure counter and sleeps the
poll interval; a failed poll increments it, and at 5 the session is
discarded, the counter zeroed, and a 10s cooldown taken instead. -/
def afterPoll (st : WorkerState) (env : PollEnv) (success : Bool) :
    WorkerState × List Action :=
  if success then
    ({ st with consecutive_failures := 0 }, [Action.sleep env.poll_interval])
  else
    let cf := st.consecutive_failures + 1
    if 5 ≤ cf then
      ({ st with vue := none, consecutive_failures := 0 }, [Action.sleep 10])
    else
      ({ st with consecutive_failures := cf }, [Action.sleep env.poll_interval])

/-- One normal (non-raising) iteration of the `while True` body
(lines 220–282): demo branch, waiting-for-config branch, connection
establishment, then the poll cycle. -/
def loopIterNormal (st : WorkerState) (env : PollEnv) : WorkerState × List Action :=
  if env.demo_mode || !env.pyemvue_available then
    (st, generate_demo_reading env.demo_draws ++ [Action.sleep env.poll_interval])
  else if !(strTruthy env.email && strTruthy env.password) then
    (st, [Action.emitStatus "waiting_for_config", Action.sleep 30])
  else
    match connectStep st env with
    | (st1, acts1, false) => (st1, acts1)
    | (st1, acts1, true) =>
      match poll_emporia env.poll_result with
      | (pollActs, success) =>
        let r := afterPoll st1 env success
        (r.1, acts1 ++ pollActs ++ r.2)

/-- What one iteration of the loop body amounts to: a normal run, an
unhandled exception raised mid-body (carrying the actions already performed
and the state the body had reached at the raise), or a `KeyboardInterrupt`. -/
inductive IterInput where
  | normal (env : PollEnv)
  | raiseExn (pre : List Action) (atRaise : WorkerState) (msg : String)
  | interrupt
  deriving DecidableEq, Repr

/-- One iteration of `while True` with its exception handlers (lines
219–292): `except Exception` emits `{"error": str(e), "retry_in": 60}`,
discards the session, sleeps 60s and continues; `except KeyboardInterrupt`
stops the loop. The third component is `False` when the loop breaks. -/
def loopIter (st : WorkerState) : IterInput → WorkerState × List Action × Bool
  | IterInput.normal env =>
    match loopIterNormal st env with
    | (st', acts) => (st', acts, true)
  | IterInput.raiseExn pre atRaise msg =>
    ({ atRaise with vue := none },
     pre ++ [Action.emitError msg (some 60), Action.sleep 60], true)
  | IterInput.interrupt => (st, [], false)

/-- The loop over a finite schedule of iteration inputs; on break,
`db.close()` runs (line 294) and the remaining schedule is ignored. -/
def runLoop (st : WorkerState) : List IterInput → WorkerState × List Action
  | [] => (st, [])
  | inp :: rest =>
    match loopIter st inp with
    | (st', acts, true) =>
      match runLoop st' rest with
      | (st'', acts') => (st'', acts ++ acts')
    | (st', acts, false) => (st', acts ++ [Action.closeDb])

/-! ### Normalizer lemmas -/

theorem lookupC_dictInsert_self (d : CircuitMap) (k : String) (v : ℚ) :
    lookupC (dictInsert d k v) k = some v := by
  induction d with
  | nil => simp [dictInsert, lookupC]
  | cons hd tl ih =>
    obtain ⟨k', v'⟩ := hd
    by_cases h : k' = k <;> simp [dictInsert, lookupC, h, ih]

theorem lookupC_dictInsert_ne (d : CircuitMap) (k k' : String) (v : ℚ)
    (h : k' ≠ k) : lookupC (dictInsert d k v) k' = lookupC d k' := by
  have h2 : ¬ (k = k') := fun hh => h hh.symm
  induction d with
  | nil => simp [dictInsert, lookupC, h2]
  | cons hd tl ih =>
    obtain ⟨k0, v0⟩ := hd
    by_cases h0 : k0 = k
    · subst h0
      simp [dictInsert, lookupC, h2]
    · simp [dictInsert, lookupC, h0, ih]

theorem processChannel_total (s : NormState) (c : Channel) :
    (processChannel s c).total = if isTotalChan c then usageOf c else s.total := by
  by_cases h1 : c.channel_num = "1,2,3"
  · simp [processChannel, isTotalChan, h1]
  · by_cases h2 : c.channel_num = "1,2"
    · simp [processChannel, isTotalChan, h1, h2]
    · by_cases h3 : c.channel_num = "3,4"
      · simp [processChannel, isTotalChan, h1, h2, h3]
      · by_cases h4 : strTruthy c.name ∧ 0 < usageOf c <;>
          simp [processChannel, isTotalChan, h1, h2, h3, h4]

theorem processChannel_phase_a (s : NormState) (c : Channel) :
    (processChannel s c).phase_a =
      if isPhaseAChan c then some (usageOf c) else s.phase_a := by
  by_cases h1 : c.channel_num = "1,2,3"
  · have h2 : ¬ c.channel_num = "1,2" := by rw [h1]; decide
    simp [processChannel, isPhaseAChan, h1, h2]
  · by_cases h2 : c.channel_num = "1,2"
    · simp [processChannel, isPhaseAChan, h1, h2]
    · by_cases h3 : c.channel_num = "3,4"
      · simp [processChannel, isPhaseAChan, h1, h2, h3]
      · by_cases h4 : strTruthy c.name ∧ 0 < usageOf c <;>
          simp [processChannel, isPhaseAChan, h1, h2, h3, h4]

theorem processChannel_phase_b (s : NormState) (c : Channel) :
    (processChannel s c).phase_b =
      if isPhaseBChan c then some (usageOf c) else s.phase_b := by
  by_cases h1 : c.channel_num = "1,2,3"
  · have h3 : ¬ c.channel_num = "3,4" := by rw [h1]; decide
    simp [processChannel, isPhaseBChan, h1, h3]
  · by_cases h2 : c.channel_num = "1,2"
    · have h3 : ¬ c.channel_num = "3,4" := by rw [h2]; decide
      simp [processChannel, isPhaseBChan, h1, h2, h3]
    · by_cases h3 : c.channel_num = "3,4"
      · simp [processChannel, isPhaseBChan, h1, h2, h3]
      · by_cases h4 : strTruthy c.name ∧ 0 < usageOf c <;>
          simp [processChannel, isPhaseBChan, h1, h2, h3, h4]

theorem processChannel_circuits (s : NormState) (c : Channel) :
    (processChannel s c).circuits =
      if isCircuitChan c then dictInsert s.circuits (c.name.getD "") (usageOf c)
      else s.circuits := by
  by_cases h1 : c.channel_num = "1,2,3"
  · simp [processChannel, isCircuitChan, h1]
  · by_cases h2 : c.channel_num = "1,2"
    · simp [processChannel, isCircuitChan, h1, h2]
    · by_cases h3 : c.channel_num = "3,4"
      · simp [processChannel, isCircuitChan, h1, h2, h3]
      · by_cases h4 : strTruthy c.name ∧ 0 < usageOf c <;>
          simp [processChannel, isCircuitChan, h1, h2, h3, h4]

theorem foldl_total (cs : List Channel) (s : NormState) :
    (cs.foldl processChannel s).total =
      ((lastMatch isTotalChan cs).map usageOf).getD s.total := by
  induction cs generalizing s with
  | nil => simp [lastMatch]
  | cons c cs ih =>
    rw [List.foldl_cons, ih]
    cases h : lastMatch isTotalChan cs with
    | some c' => simp [lastMatch, h]
    | none =>
      by_cases hc : isTotalChan c <;> simp [lastMatch, h, hc, processChannel_total]

theorem foldl_phase_a (cs : List Channel) (s : NormState) :
    (cs.foldl processChannel s).phase_a =
      match lastMatch isPhaseAChan cs with
      | some c' => some (usageOf c')
      | none => s.phase_a := by
  induction cs generalizing s with
  | nil => simp [lastMatch]
  | cons c cs ih =>
    rw [List.foldl_cons, ih]
    cases h : lastMatch isPhaseAChan cs with
    | some c' => simp [lastMatch, h]
    | none =>
      by_cases hc : isPhaseAChan c <;> simp [lastMatch, h, hc, processChannel_phase_a]

theorem foldl_phase_b (cs : List Channel) (s : NormState) :
    (cs.foldl processChannel s).phase_b =
      match lastMatch isPhaseBChan cs with
      | some c' => some (usageOf c')
      | none => s.phase_b := by
  induction cs generalizing s with
  | nil => simp [lastMatch]
  | cons c cs ih =>
    rw [List.foldl_cons, ih]
    cases h : lastMatch isPhaseBChan cs with
    | some c' => simp [lastMatch, h]
    | none =>
      by_cases hc : isPhaseBChan c <;> simp [lastMatch, h, hc, processChannel_phase_b]

theorem lookupC_processChannel (s : NormState) (c : Channel) (name : String) :
    lookupC (processChannel s c).circuits name =
      if isCircuitFor name c then some (usageOf c)
      else lookupC s.circuits name := by
  rw [processChannel_circuits]
  by_cases hc : isCircuitChan c
  · simp only [hc, if_true]
    by_cases hn : c.name = some name
    · have hf : isCircuitFor name c := by simp [isCircuitFor, hc, hn]
      have hgd : c.name.getD "" = name := by rw [hn]; rfl
      simp [hf, hgd, lookupC_dictInsert_self]
    · have hf : ¬ isCircuitFor name c := by simp [isCircuitFor, hn]
      have hgd : name ≠ c.name.getD "" := by
        intro h
        rcases hcn : c.name with _ | n
        · simp [isCircuitChan, hcn, strTruthy] at hc
        · apply hn; rw [hcn]; rw [hcn] at h; simp at h; rw [h]
      simp [hf, lookupC_dictInsert_ne _ _ _ _ hgd]
  · have hf : ¬ isCircuitFor name c := by simp [isCircuitFor, hc]
    simp [hc, hf]

theorem foldl_circuits (cs : List Channel) (s : NormState) (name : String) :
    lookupC (cs.foldl processChannel s).circuits name =
      match lastMatch (isCircuitFor name) cs with
      | some c' => some (usageOf c')
      | none => lookupC s.circuits name := by
  induction cs generalizing s with
  | nil => simp [lastMatch]
  | cons c cs ih =>
    rw [List.foldl_cons, ih]
    cases h : lastMatch (isCircuitFor name) cs with
    | some c' => simp [lastMatch, h]
    | none =>
      by_cases hc : isCircuitFor name c <;> simp [lastMatch, h, hc, lookupC_processChannel]

/-- C1: For every raw payload, channels are processed in the order received;
the `1,2,3` / `1,2` / `3,4` identifiers assign (last assignment wins) to
`total` / `phase_a` / `phase_b`; every other channel with a non-empty name and
usage > 0 lands in `circuits[name] = usage` with last-wins overwrite; a
channel with absent/null usage behaves exactly like one with usage 0; a named
channel with usage ≤ 0 never reaches the circuits map (it fails
`isCircuitFor`, so the lookup ignores it). -/
theorem normalizer_classification (cs : List Channel) (name : String) :
    (normalize cs).total = ((lastMatch isTotalChan cs).map usageOf).getD 0 ∧
    (normalize cs).phase_a = (lastMatch isPhaseAChan cs).map usageOf ∧
    (normalize cs).phase_b = (lastMatch isPhaseBChan cs).map usageOf ∧
    lookupC (normalize cs).circuits name =
      (lastMatch (isCircuitFor name) cs).map usageOf ∧
    (∀ s num nm, processChannel s ⟨num, nm, none⟩ = processChannel s ⟨num, nm, some 0⟩) ∧
    (∀ c, usageOf c ≤ 0 → ∀ nm, isCircuitFor nm c = false) := by
  refine ⟨?_, ?_, ?_, ?_, ?_, ?_⟩
  · exact foldl_total cs _
  · rw [normalize, foldl_phase_a]
    cases lastMatch isPhaseAChan cs <;> simp
  · rw [normalize, foldl_phase_b]
    cases lastMatch isPhaseBChan cs <;> simp
  · rw [normalize, foldl_circuits]
    cases lastMatch (isCircuitFor name) cs <;> simp [lookupC]
  · intro s num nm
    unfold processChannel
    simp [usageOf]
  · intro c hc nm
    simp only [isCircuitFor, isCircuitChan]
    simp [not_lt.mpr hc]

/-- C1 witness: a single unmatched named channel with positive usage lands in
the circuits map. -/
theorem normalizer_classification_witness :
    lookupC (normalize [⟨"5", some "Oven", some 3⟩]).circuits "Oven" = some 3 := by
  have h := (normalizer_classification [⟨"5", some "Oven", some 3⟩] "Oven").2.2.2.1
  rw [h]
  have hp : isCircuitFor "Oven" ⟨"5", some "Oven", some 3⟩ = true := by
    norm_num [isCircuitFor, isCircuitChan, strTruthy, usageOf]
    decide
  simp [lastMatch, hp, usageOf]

/-! ### Learning-status lemmas -/

theorem foldl_update_total_readings (l : List Int) (ls : LearningStatus) :
    (l.foldl update_learning_status ls).total_readings =
      ls.total_readings + l.length := by
  induction l generalizing ls with
  | nil => simp
  | cons t l ih =>
    rw [List.foldl_cons, ih]
    simp [update_learning_status]
    omega

theorem foldl_update_first_frozen (l : List Int) (ls : LearningStatus) (t : Int)
    (h : ls.first_reading_ts = some t) :
    (l.foldl update_learning_status ls).first_reading_ts = some t := by
  induction l generalizing ls with
  | nil => exact h
  | cons t' l ih =>
    rw [List.foldl_cons]
    exact ih _ (by simp [update_learning_status, h])

/-- C3: starting from the initialized singleton row (`total_readings = 0`,
`first_reading_ts` unset), N calls of the learning-status update leave
`total_readings = N` and `first_reading_ts` equal to the first call's
timestamp; any later call leaves an already-set `first_reading_ts`
unchanged. -/
theorem learning_status_n_calls (ts1 : Int) (rest : List Int) :
    ((ts1 :: rest).foldl update_learning_status ⟨none, 0⟩).total_readings
        = (ts1 :: rest).length ∧
    ((ts1 :: rest).foldl update_learning_status ⟨none, 0⟩).first_reading_ts
        = some ts1 ∧
    (∀ (ls : LearningStatus) (t t' : Int), ls.first_reading_ts = some t →
      (update_learning_status ls t').first_reading_ts = some t) := by
  refine ⟨?_, ?_, ?_⟩
  · rw [foldl_update_total_readings]
    simp
  · rw [List.foldl_cons]
    exact foldl_update_first_frozen rest _ ts1 (by simp [update_learning_status])
  · intro ls t t' h
    simp [update_learning_status, h]

/-- C3 witness: two calls with timestamps 5 then 7 give
`total_readings = 2` and `first_reading_ts = 5`. -/
theorem learning_status_n_calls_witness :
    (([5, 7] : List Int).foldl update_learning_status ⟨none, 0⟩).total_readings = 2 ∧
    (([5, 7] : List Int).foldl update_learning_status ⟨none, 0⟩).first_reading_ts
      = some 5 :=
  ⟨(learning_status_n_calls 5 [7]).1.trans rfl, (learning_status_n_calls 5 [7]).2.1⟩

/-- C4: on a successful live poll the stored reading carries the unrounded
total, phases and circuits, while the emitted object rounds the total and
every circuit value to 2 decimals and publishes each phase through the falsy
coalescing rule — a phase of exactly 0 or an absent phase becomes `null`, any
other phase is rounded to 2 decimals. -/
theorem publish_boundary (ts : Int) (channels : List Channel) :
    poll_emporia (PollResult.payload ts channels) =
      ([Action.storeReading ts (normalize channels).total
          (normalize channels).phase_a (normalize channels).phase_b
          (normalize channels).circuits,
        Action.bumpStatus ts,
        Action.emitReading
          { demo := false
            ts := ts
            total := round2 (normalize channels).total
            phase_a := coalescePhase (normalize channels).phase_a
            phase_b := coalescePhase (normalize channels).phase_b
            circuits := (normalize channels).circuits.map
              (fun p => (p.1, round2 p.2)) }],
       true) ∧
    coalescePhase (some 0) = none ∧
    coalescePhase none = none ∧
    (∀ q : ℚ, q ≠ 0 → coalescePhase (some q) = some (round2 q)) := by
  refine ⟨rfl, by simp [coalescePhase], rfl, ?_⟩
  intro q hq
  simp [coalescePhase, hq]

/-- C4 witness: a nonzero phase value of 550 is published as
`round2 550`. -/
theorem publish_boundary_witness :
    coalescePhase (some 550) = some (round2 550) :=
  (publish_boundary 0 []).2.2.2 550 (by norm_num)

/-- C8: for the payload with channels `1,2,3`↦1000 and `1,2`↦550 and no named
channels, the stored reading is total 1000, phase_a 550, phase_b null, empty
circuits, and the emitted reading carries the same values rounded to 2
decimals with phase_b published as `null`. -/
theorem scenario_two_mains :
    normalize [⟨"1,2,3", none, some 1000⟩, ⟨"1,2", none, some 550⟩] =
      ⟨1000, some 550, none, []⟩ ∧
    poll_emporia (PollResult.payload 1700000000
        [⟨"1,2,3", none, some 1000⟩, ⟨"1,2", none, some 550⟩]) =
      ([Action.storeReading 1700000000 1000 (some 550) none [],
        Action.bumpStatus 1700000000,
        Action.emitReading
          { demo := false
            ts := 1700000000
            total := 1000
            phase_a := some 550
            phase_b := none
            circuits := [] }], true) := by
  have hn : normalize [⟨"1,2,3", none, some 1000⟩, ⟨"1,2", none, some 550⟩] =
      ⟨1000, some 550, none, []⟩ := by
    simp [normalize, processChannel, usageOf]
  refine ⟨hn, ?_⟩
  simp only [poll_emporia, hn, emitLiveReading, roundCircuits, coalescePhase]
  norm_num [round2, round_eq]

/-- C9: with the random draws taken as inputs (noise terms drawn from
`uniform(-50,50)`, HVAC draw from `uniform(100,400)`), a demo reading stores
the unrounded values and bumps the learning status exactly like a live
reading (one `update_learning_status` call), its phases differ from the
0.55/0.45 fractions of total by at most the ±50 noise, its circuit map has
exactly the four fixed names, HVAC is zeroed exactly when the gate draw is
≤ 0.3, and the emitted object carries the demo flag. -/
theorem demo_reading_shape (d : DemoDraws)
    (ha1 : -50 ≤ d.noise_a) (ha2 : d.noise_a ≤ 50)
    (hb1 : -50 ≤ d.noise_b) (hb2 : d.noise_b ≤ 50)
    (hh : 100 ≤ d.hvac_draw) :
    generate_demo_reading d =
      [Action.storeReading d.ts (demoTotal d) (some (demoPhaseA d))
         (some (demoPhaseB d)) (demoCircuits d),
       Action.bumpStatus d.ts,
       Action.emitReading (demoEmit d)] ∧
    |demoPhaseA d - 55 / 100 * demoTotal d| ≤ 50 ∧
    |demoPhaseB d - 45 / 100 * demoTotal d| ≤ 50 ∧
    (demoCircuits d).map Prod.fst = ["HVAC", "Kitchen", "Living Room", "Office"] ∧
    (lookupC (demoCircuits d) "HVAC" = some 0 ↔ d.hvac_gate ≤ 3 / 10) ∧
    (demoEmit d).demo = true ∧
    (∀ ls : LearningStatus,
      applyLS ls (generate_demo_reading d) = update_learning_status ls d.ts ∧
      ∀ (ts : Int) (cs : List Channel),
        applyLS ls (poll_emporia (PollResult.payload ts cs)).1 =
          update_learning_status ls ts) := by
  refine ⟨rfl, ?_, ?_, rfl, ?_, rfl, ?_⟩
  · have h : demoPhaseA d - 55 / 100 * demoTotal d = d.noise_a := by
      unfold demoPhaseA; ring
    rw [h, abs_le]
    exact ⟨ha1, ha2⟩
  · have h : demoPhaseB d - 45 / 100 * demoTotal d = d.noise_b := by
      unfold demoPhaseB; ring
    rw [h, abs_le]
    exact ⟨hb1, hb2⟩
  · by_cases hg : 3 / 10 < d.hvac_gate
    · have hne : d.hvac_draw ≠ 0 :=
        ne_of_gt (lt_of_lt_of_le (by norm_num) hh)
      simp [demoCircuits, lookupC, hg, hne, not_le.mpr hg]
    · simp [demoCircuits, lookupC, hg, not_lt.mp hg]
  · intro ls
    constructor
    · simp [generate_demo_reading, applyLS]
    · intro ts cs
      simp [poll_emporia, applyLS]

/-- C9 witness: a concrete draw vector with in-range noise and HVAC draw. -/
theorem demo_reading_shape_witness :
    (demoCircuits ⟨0, 0, 0, 0, 0, 0, 1/2, 100, 0, 0, 0⟩).map Prod.fst =
      ["HVAC", "Kitchen", "Living Room", "Office"] ∧
    (lookupC (demoCircuits ⟨0, 0, 0, 0, 0, 0, 1/2, 100, 0, 0, 0⟩) "HVAC" = some 0 ↔
      (1 : ℚ) / 2 ≤ 3 / 10) :=
  ⟨(demo_reading_shape ⟨0, 0, 0, 0, 0, 0, 1/2, 100, 0, 0, 0⟩ (by norm_num)
      (by norm_num) (by norm_num) (by norm_num) (by norm_num)).2.2.2.1,
   (demo_reading_shape ⟨0, 0, 0, 0, 0, 0, 1/2, 100, 0, 0, 0⟩ (by norm_num)
      (by norm_num) (by norm_num) (by norm_num) (by norm_num)).2.2.2.2.1⟩

/-- C10: the demo path publishes both phases unconditionally as rounded
numbers — no falsy coalescing — so a demo phase of exactly 0 is emitted as
the number 0, while the live rule would publish `null` for it. -/
theorem demo_phase_no_coalescing (d : DemoDraws) :
    (demoEmit d).phase_a = some (round2 (demoPhaseA d)) ∧
    (demoEmit d).phase_b = some (round2 (demoPhaseB d)) ∧
    (demoPhaseA d = 0 → (demoEmit d).phase_a = some 0) ∧
    coalescePhase (some 0) = none := by
  refine ⟨rfl, rfl, ?_, by simp [coalescePhase]⟩
  intro h
  simp [demoEmit, h, round2]

/-- C10 witness: a draw vector whose demo phase_a is exactly 0 is emitted as
the number 0, not `null`. -/
theorem demo_phase_no_coalescing_witness :
    (demoEmit ⟨0, 0, -800, 0, 0, 0, 0, 0, 0, 0, 0⟩).phase_a = some 0 :=
  (demo_phase_no_coalescing ⟨0, 0, -800, 0, 0, 0, 0, 0, 0, 0, 0⟩).2.2.1
    (by norm_num [demoPhaseA, demoTotal, isPeakHour])

/-! ### Main-loop lemmas -/

theorem connectStep_connected (st : WorkerState) (env : PollEnv)
    (hv : st.vue = some ()) : connectStep st env = (st, [], true) := by
  unfold connectStep
  rw [hv]

theorem loopIterNormal_connected (st : WorkerState) (env : PollEnv)
    (hd : env.demo_mode = false) (hp : env.pyemvue_available = true)
    (he : strTruthy env.email = true) (hw : strTruthy env.password = true)
    (hv : st.vue = some ()) :
    loopIterNormal st env =
      ((afterPoll st env (poll_emporia env.poll_result).2).1,
       (poll_emporia env.poll_result).1 ++
         (afterPoll st env (poll_emporia env.poll_result).2).2) := by
  unfold loopIterNormal
  rw [hd, hp, he, hw, connectStep_connected st env hv]
  rcases hpoll : poll_emporia env.poll_result with ⟨pollActs, success⟩
  simp

/-- C2: in a connected session, a failed poll cycle that brings the
consecutive-failure counter to 5 discards the client handle (session forced
to Absent), resets the counter to exactly 0, and ends the iteration with the
10-second cooldown sleep; any successful poll cycle resets the counter
to 0. -/
theorem failure_threshold_reconnect (st : WorkerState) (env : PollEnv)
    (hd : env.demo_mode = false) (hp : env.pyemvue_available = true)
    (he : strTruthy env.email = true) (hw : strTruthy env.password = true)
    (hv : st.vue = some ()) :
    ((poll_emporia env.poll_result).2 = false → 4 ≤ st.consecutive_failures →
      (loopIterNormal st env).1.vue = none ∧
      (loopIterNormal st env).1.consecutive_failures = 0 ∧
      ((loopIterNormal st env).2).getLast? = some (Action.sleep 10)) ∧
    ((poll_emporia env.poll_result).2 = true →
      (loopIterNormal st env).1.consecutive_failures = 0) := by
  rw [loopIterNormal_connected st env hd hp he hw hv]
  constructor
  · intro hfail hcf
    rw [hfail]
    have h5 : 5 ≤ st.consecutive_failures + 1 := by omega
    simp [afterPoll, h5]
  · intro hsucc
    rw [hsucc]
    simp [afterPoll]

/-- C2 witness: a connected state at 4 consecutive failures plus one more
failing poll yields session Absent, counter 0, and a trailing 10s sleep. -/
theorem failure_threshold_reconnect_witness :
    (loopIterNormal ⟨some (), some "1", 4⟩
        ⟨false, true, 2, some "a", some "b", some "1", [],
         ⟨0, 0, 0, 0, 0, 0, 0, 0, 0, 0, 0⟩, PollResult.exn "boom"⟩).1.vue = none ∧
    (loopIterNormal ⟨some (), some "1", 4⟩
        ⟨false, true, 2, some "a", some "b", some "1", [],
         ⟨0, 0, 0, 0, 0, 0, 0, 0, 0, 0, 0⟩,
         PollResult.exn "boom"⟩).1.consecutive_failures = 0 :=
  have h := (failure_threshold_reconnect ⟨some (), some "1", 4⟩
    ⟨false, true, 2, some "a", some "b", some "1", [],
     ⟨0, 0, 0, 0, 0, 0, 0, 0, 0, 0, 0⟩, PollResult.exn "boom"⟩
    rfl rfl rfl rfl rfl).1 rfl (by norm_num)
  ⟨h.1, h.2.1⟩

/-- C5: when demo mode is off, the client library is available, and either
credential is absent, the iteration emits exactly `waiting_for_config` and a
30-second sleep, leaves the worker state untouched (so no connection attempt
and no session change), and its action trace performs no learning-status
update at all. -/
theorem waiting_for_config_iteration (st : WorkerState) (env : PollEnv)
    (hd : env.demo_mode = false) (hp : env.pyemvue_available = true)
    (hc : env.email = none ∨ env.password = none) :
    loopIterNormal st env =
      (st, [Action.emitStatus "waiting_for_config", Action.sleep 30]) ∧
    (∀ ls : LearningStatus, applyLS ls (loopIterNormal st env).2 = ls) := by
  have hcred : (strTruthy env.email && strTruthy env.password) = false := by
    rcases hc with h | h <;> simp [strTruthy, h]
  have h1 : loopIterNormal st env =
      (st, [Action.emitStatus "waiting_for_config", Action.sleep 30]) := by
    unfold loopIterNormal
    rw [hd, hp, hcred]
    simp
  refine ⟨h1, fun ls => ?_⟩
  rw [h1]
  simp [applyLS]

/-- C5 witness: absent email, with demo mode off and the library available. -/
theorem waiting_for_config_iteration_witness :
    loopIterNormal ⟨none, none, 0⟩
        ⟨false, true, 2, none, some "pw", none, [],
         ⟨0, 0, 0, 0, 0, 0, 0, 0, 0, 0, 0⟩, PollResult.noDeviceData⟩ =
      (⟨none, none, 0⟩,
       [Action.emitStatus "waiting_for_config", Action.sleep 30]) :=
  (waiting_for_config_iteration ⟨none, none, 0⟩
    ⟨false, true, 2, none, some "pw", none, [],
     ⟨0, 0, 0, 0, 0, 0, 0, 0, 0, 0, 0⟩, PollResult.noDeviceData⟩
    rfl rfl (Or.inl rfl)).1

/-- C6: during a connection attempt with no persisted device identifier, an
empty upstream device list makes the iteration emit `no_devices_found`,
sleep 60 seconds, and end with the session Absent and nothing else done;
a non-empty list deterministically selects the first entry, persists it
(`saveDeviceGid` precedes the `connected` emission and all poll actions), and
proceeds with the session established. -/
theorem device_discovery (st : WorkerState) (env : PollEnv)
    (hd : env.demo_mode = false) (hp : env.pyemvue_available = true)
    (he : strTruthy env.email = true) (hw : strTruthy env.password = true)
    (hv : st.vue = none) (hg : env.db_device_gid = none) :
    (env.discovered_devices = [] →
      loopIterNormal st env =
        ({ vue := none, device_gid := none,
           consecutive_failures := st.consecutive_failures },
         [Action.emitStatus "connecting",
          Action.login (env.email.getD "") (env.password.getD ""),
          Action.emitError "no_devices_found" none, Action.sleep 60])) ∧
    (∀ dev rest, env.discovered_devices = dev :: rest →
      (loopIterNormal st env).1.device_gid = some dev ∧
      (loopIterNormal st env).1.vue = some () ∧
      ((loopIterNormal st env).2).take 4 =
        [Action.emitStatus "connecting",
         Action.login (env.email.getD "") (env.password.getD ""),
         Action.saveDeviceGid dev, Action.emitConnected dev]) := by
  constructor
  · intro hempty
    have hcs : connectStep st env =
        (⟨none, none, st.consecutive_failures⟩,
         [Action.emitStatus "connecting",
          Action.login (env.email.getD "") (env.password.getD ""),
          Action.emitError "no_devices_found" none, Action.sleep 60], false) := by
      unfold connectStep
      rw [hv, hg, hempty]
      simp [strTruthy]
    unfold loopIterNormal
    rw [hd, hp, he, hw, hcs]
    simp
  · intro dev rest hcons
    have hcs : connectStep st env =
        (⟨some (), some dev, 0⟩,
         [Action.emitStatus "connecting",
          Action.login (env.email.getD "") (env.password.getD ""),
          Action.saveDeviceGid dev, Action.emitConnected dev], true) := by
      unfold connectStep
      rw [hv, hg, hcons]
      simp [strTruthy]
    unfold loopIterNormal
    rw [hd, hp, he, hw, hcs]
    rcases hpoll : poll_emporia env.poll_result with ⟨pollActs, success⟩
    cases success <;> simp [afterPoll, List.take]

/-- C6 witness: first-ever connection attempt (no persisted gid) against an
empty device list. -/
theorem device_discovery_witness :
    loopIterNormal ⟨none, none, 3⟩
        ⟨false, true, 2, some "a", some "b", none, [],
         ⟨0, 0, 0, 0, 0, 0, 0, 0, 0, 0, 0⟩, PollResult.noDeviceData⟩ =
      (⟨none, none, 3⟩,
       [Action.emitStatus "connecting", Action.login "a" "b",
        Action.emitError "no_devices_found" none, Action.sleep 60]) :=
  (device_discovery ⟨none, none, 3⟩
    ⟨false, true, 2, some "a", some "b", none, [],
     ⟨0, 0, 0, 0, 0, 0, 0, 0, 0, 0, 0⟩, PollResult.noDeviceData⟩
    rfl rfl rfl rfl rfl rfl).1 rfl

/-- C7: an unhandled exception raised anywhere in the loop body is caught at
the top level: whatever the body had already done, the handler emits the
exception text with `retry_in = 60`, forces the session to Absent, sleeps 60s
and the loop continues; a normal iteration always continues as well; only the
interruption input stops the loop, which then closes the database and ignores
any further schedule. -/
theorem loop_error_handling (st atRaise : WorkerState) (pre : List Action)
    (msg : String) (env : PollEnv) (rest : List IterInput) :
    loopIter st (IterInput.raiseExn pre atRaise msg) =
      ({ atRaise with vue := none },
       pre ++ [Action.emitError msg (some 60), Action.sleep 60], true) ∧
    (loopIter st (IterInput.normal env)).2.2 = true ∧
    runLoop st (IterInput.interrupt :: rest) = (st, [Action.closeDb]) := by
  refine ⟨rfl, ?_, ?_⟩
  · rcases h : loopIterNormal st env with ⟨st', acts⟩
    simp [loopIter, h]
  · simp [runLoop, loopIter]

end EmporiaWorker
